import Mathlib

/-!
Shallow embedding of `kaelzhang/keras-DA-RNN`.

Source files:
* `src/da_rnn/torch/model.py` — torch `Encoder` and `Decoder` modules.
* `src/da_rnn/model.py` — framework-native (keras) `DARNN` model; its layers
  (`EncoderInput`, keras `Decoder`) live in `da_rnn/layers`, which is not part
  of the given sources, so those layers are modelled from the spec where a
  claim depends on them.

Real tensors are embedded as functions `Fin a → Fin b → ... → ℝ`; exact real
arithmetic stands in for floating point.  A separate shape-level model
(`Shape := List ℕ`, torch operations returning `Except PyErr Shape`) mirrors
the runtime shape checks of each tensor operation, so that shape-mismatch and
error-raising behaviour is statable.
-/

/-- Python exception kinds that the modelled code can raise. -/
inductive PyErr
  | attributeError
  | valueError
  | indexError
  | runtimeError
  | unboundLocalError
deriving DecidableEq

/-- A real vector of length `k` (one tensor axis). -/
abbrev Vec (k : ℕ) := Fin k → ℝ

/-- A real `r × c` matrix; `Linear(in_f, out_f)` weights are `Mat out_f in_f`. -/
abbrev Mat (r c : ℕ) := Fin r → Fin c → ℝ

/-- Logistic sigmoid, used by the LSTM gate equations. -/
noncomputable def sigmoid (x : ℝ) : ℝ := 1 / (1 + Real.exp (-x))

/-- `torch.softmax(v, dim)` along one axis of length `k`
(model.py lines 86 and 189). -/
noncomputable def torchSoftmax {k : ℕ} (v : Vec k) : Vec k :=
  fun i => Real.exp (v i) / ∑ j, Real.exp (v j)

/-- Concatenation of two vectors along the feature axis (`torch.cat(..., 1)`). -/
noncomputable def catV {a b : ℕ} (u : Vec a) (v : Vec b) : Vec (a + b) :=
  fun i =>
    if h : i.val < a then u ⟨i.val, h⟩
    else v ⟨i.val - a, by have := i.isLt; omega⟩

/-- Parameters of a single-layer `torch.nn.LSTM(inp, hid)`, one matrix/bias
per gate as in the torch documentation (gates `i`, `f`, `g`, `o`). -/
structure LSTMParams (inp hid : ℕ) where
  w_ii : Mat hid inp
  w_if : Mat hid inp
  w_ig : Mat hid inp
  w_io : Mat hid inp
  w_hi : Mat hid hid
  w_hf : Mat hid hid
  w_hg : Mat hid hid
  w_ho : Mat hid hid
  b_ii : Vec hid
  b_if : Vec hid
  b_ig : Vec hid
  b_io : Vec hid
  b_hi : Vec hid
  b_hf : Vec hid
  b_hg : Vec hid
  b_ho : Vec hid

/-- One step of the torch LSTM cell: gate equations of the torch docs,
returning the new `(hidden, cell)` pair. -/
noncomputable def lstmCell {inp hid : ℕ} (P : LSTMParams inp hid)
    (x : Vec inp) (h c : Vec hid) : Vec hid × Vec hid :=
  let i := fun k =>
    sigmoid ((∑ j, P.w_ii k j * x j) + P.b_ii k + (∑ j, P.w_hi k j * h j) + P.b_hi k)
  let f := fun k =>
    sigmoid ((∑ j, P.w_if k j * x j) + P.b_if k + (∑ j, P.w_hf k j * h j) + P.b_hf k)
  let g := fun k =>
    Real.tanh ((∑ j, P.w_ig k j * x j) + P.b_ig k + (∑ j, P.w_hg k j * h j) + P.b_hg k)
  let o := fun k =>
    sigmoid ((∑ j, P.w_io k j * x j) + P.b_io k + (∑ j, P.w_ho k j * h j) + P.b_ho k)
  let c' := fun k => f k * c k + i k * g k
  (fun k => o k * Real.tanh (c' k), c')

/-- The all-zero `LSTMParams`, used to build concrete module instances. -/
noncomputable def zeroLSTM (inp hid : ℕ) : LSTMParams inp hid :=
  ⟨fun _ _ => 0, fun _ _ => 0, fun _ _ => 0, fun _ _ => 0,
   fun _ _ => 0, fun _ _ => 0, fun _ _ => 0, fun _ _ => 0,
   fun _ => 0, fun _ => 0, fun _ => 0, fun _ => 0,
   fun _ => 0, fun _ => 0, fun _ => 0, fun _ => 0⟩

/-- Torch `Decoder` module (torch/model.py lines 104-146): its `__init__`
stores `n, T, m, p, y_dim, dropout` and creates the layers
`WU_d = Linear(p*2+m, m, False)`, `v_d = Linear(m, 1, False)`,
`linear = Linear(y_dim+m, 1, False)`, `lstm = LSTM(1, p)`,
`Wb = Linear(p+m, p)` (with bias), `vb = Linear(p, y_dim)` (with bias).
`__init__` performs no validation of `T`. -/
structure Decoder (T m p y_dim : ℕ) where
  n : ℕ
  WU_d : Mat m (p * 2 + m)
  v_d : Mat 1 m
  linear : Mat 1 (y_dim + m)
  lstm : LSTMParams 1 p
  Wb_w : Mat p (p + m)
  Wb_b : Vec p
  vb_w : Mat y_dim p
  vb_b : Vec y_dim
  dropout : ℝ

/-- Per-iteration state of `Decoder.forward`'s loop: the recurrent
`hidden_state`/`cell_state` (shape `(1, batch, p)`, stored batch-major) and
the local variable `context_vector`, which is unbound (`none`) until the
first loop iteration assigns it. -/
structure DecState (batch p m : ℕ) where
  hidden : Fin batch → Vec p
  cell : Fin batch → Vec p
  context : Option (Fin batch → Vec m)

/-- torch/model.py lines 160-161: zero-initialised recurrent state;
`context_vector` starts out unbound. -/
noncomputable def decInit (batch p m : ℕ) : DecState batch p m :=
  ⟨fun _ _ => 0, fun _ _ => 0, none⟩

/-- The row `[d_{t-1}; s'_{t-1}; X_encoded[j]]` of length `p*2 + m` that is fed
to `WU_d` for encoder step `j` (lines 168-180: `cat` of the repeated
`(hidden, cell)` pair with batch-major `X_encoded`). -/
noncomputable def decAttnRow {T m p y_dim batch : ℕ} (_d : Decoder T m p y_dim)
    (Xenc : Fin T → Fin batch → Vec m) (s : DecState batch p m)
    (b : Fin batch) (j : Fin T) : Vec (p * 2 + m) :=
  fun i =>
    if h1 : i.val < p then s.hidden b ⟨i.val, h1⟩
    else if h2 : i.val < p * 2 then s.cell b ⟨i.val - p, by omega⟩
    else Xenc j b ⟨i.val - p * 2, by have := i.isLt; omega⟩

/-- Equation 12 (lines 165-186): raw temporal attention scores
`l = v_d(tanh(WU_d([d;s'] ‖ X_encoded)))`, viewed as `(batch, T)`. -/
noncomputable def decL {T m p y_dim batch : ℕ} (d : Decoder T m p y_dim)
    (Xenc : Fin T → Fin batch → Vec m) (s : DecState batch p m)
    (b : Fin batch) : Vec T :=
  fun j => ∑ i, d.v_d 0 i * Real.tanh (∑ r, d.WU_d i r * decAttnRow d Xenc s b j r)

/-- Equation 13 (line 189): `Beta_t = torch.softmax(l, 1)`. -/
noncomputable def decBeta {T m p y_dim batch : ℕ} (d : Decoder T m p y_dim)
    (Xenc : Fin T → Fin batch → Vec m) (s : DecState batch p m)
    (b : Fin batch) : Vec T :=
  torchSoftmax (decL d Xenc s b)

/-- Equation 14 (lines 193-198): `context_vector = bmm(Beta_t, X_encoded)`,
the `Beta_t`-weighted sum of the encoder hidden states. -/
noncomputable def decContext {T m p y_dim batch : ℕ} (d : Decoder T m p y_dim)
    (Xenc : Fin T → Fin batch → Vec m) (s : DecState batch p m) :
    Fin batch → Vec m :=
  fun b k => ∑ j, decBeta d Xenc s b j * Xenc j b k

/-- Equation 15 (lines 202-205): `y_tilde = linear(cat(Y[:, t, :], context))`. -/
noncomputable def decYtilde {T m p y_dim : ℕ} (d : Decoder T m p y_dim)
    (Yt : Vec y_dim) (cv : Vec m) : ℝ :=
  ∑ i, d.linear 0 i * catV Yt cv i

/-- One iteration of the `for t in range(self.T - 1)` loop of
`Decoder.forward` (lines 163-213): Equations 12-16.  `Y t b` is the slice
`Y[:, t, :]`; `Decoder.forward` only ever evaluates it at `t < T - 1`,
matching `Y`'s source shape `(batch, T-1, y_dim)` (the shape-level model
below enforces the bound). -/
noncomputable def decStep {T m p y_dim batch : ℕ} (d : Decoder T m p y_dim)
    (Y : ℕ → Fin batch → Vec y_dim) (Xenc : Fin T → Fin batch → Vec m)
    (t : ℕ) (s : DecState batch p m) : DecState batch p m :=
  let cv := decContext d Xenc s
  let yt := fun b => decYtilde d (Y t b) (cv b)
  let hc := fun b => lstmCell d.lstm (fun _ => yt b) (s.hidden b) (s.cell b)
  ⟨fun b => (hc b).1, fun b => (hc b).2, some cv⟩

/-- State after the first `k` iterations of the decoder loop. -/
noncomputable def decStateAt {T m p y_dim batch : ℕ} (d : Decoder T m p y_dim)
    (Y : ℕ → Fin batch → Vec y_dim) (Xenc : Fin T → Fin batch → Vec m) :
    ℕ → DecState batch p m
  | 0 => decInit batch p m
  | k + 1 => decStep d Y Xenc k (decStateAt d Y Xenc k)

/-- Equation 22 (lines 216-222): `y_hat_T = vb(Wb(cat(hidden, context)))`,
with `Wb : Linear(p+m, p)` and `vb : Linear(p, y_dim)`, both with bias. -/
noncomputable def decFinal {T m p y_dim batch : ℕ} (d : Decoder T m p y_dim)
    (h : Fin batch → Vec p) (cv : Fin batch → Vec m) : Fin batch → Vec y_dim :=
  fun b o =>
    d.vb_b o + ∑ kp, d.vb_w o kp * (d.Wb_b kp + ∑ i, d.Wb_w kp i * catV (h b) (cv b) i)

/-- `Decoder.forward` (lines 148-225): run the loop `T - 1` times, then apply
Equation 22 to the final hidden state and the `context_vector` left bound by
the last iteration.  When the loop body never ran (`T - 1 = 0`) the Python
name `context_vector` is unbound at line 218 and the call raises. -/
noncomputable def Decoder.forward {T m p y_dim batch : ℕ} (d : Decoder T m p y_dim)
    (Y : ℕ → Fin batch → Vec y_dim) (Xenc : Fin T → Fin batch → Vec m) :
    Except PyErr (Fin batch → Vec y_dim) :=
  let s := decStateAt d Y Xenc (T - 1)
  match s.context with
  | none => .error .unboundLocalError
  | some cv => .ok (decFinal d s.hidden cv)

/-- Torch `Encoder` module (torch/model.py lines 12-47): `__init__` stores
`n, T, m, dropout` and creates `WU_e = Linear(m*2+T, T, False)`,
`v_e = Linear(T, 1, False)`, `lstm = LSTM(n, m)`.  It defines **no**
attribute named `linear`, although `forward` refers to one. -/
structure Encoder (n T m : ℕ) where
  WU_e : Mat T (m * 2 + T)
  v_e : Mat 1 T
  lstm : LSTMParams n m
  dropout : ℝ

/-- State of `Encoder.forward`'s loop: `hidden_state`, `cell_state`
(shape `(1, batch, m)`, stored batch-major) and the accumulating
`X_encoded` of shape `(T, batch, m)`. -/
structure EncState (T batch m : ℕ) where
  hidden : Fin batch → Vec m
  cell : Fin batch → Vec m
  x_encoded : Fin T → Fin batch → Vec m

/-- torch/model.py lines 60-63: all three tensors start as zeros. -/
noncomputable def encInit (T batch m : ℕ) : EncState T batch m :=
  ⟨fun _ _ => 0, fun _ _ => 0, fun _ _ _ => 0⟩

/-- One iteration of the `for t in range(self.T)` loop of `Encoder.forward`
(lines 65-99).  Lines 67-71 build `hs`, the `(hidden; cell)` concatenation
broadcast over the `n` series.  Line 74 then evaluates `self.linear(...)`:
Python resolves the callee `self.linear` before its argument, and the
`Encoder` object owns no attribute `linear` (only `WU_e`, `v_e`, `lstm`), so
attribute lookup raises `AttributeError` here on every iteration, before any
tensor arithmetic of Equation 8 runs. -/
noncomputable def encStep {n T m batch : ℕ} (e : Encoder n T m)
    (_X : Fin batch → Fin T → Vec n) (_t : ℕ) (s : EncState T batch m) :
    Except PyErr (EncState T batch m) :=
  let _hs : Fin batch → Fin n → Vec (m * 2) := fun b _ i =>
    if h : i.val < m then s.hidden b ⟨i.val, h⟩
    else s.cell b ⟨i.val - m, by have := i.isLt; omega⟩
  let _unused := e.WU_e
  .error .attributeError

/-- The first `k` iterations of the encoder loop, propagating any raised
exception. -/
noncomputable def encRun {n T m batch : ℕ} (e : Encoder n T m)
    (X : Fin batch → Fin T → Vec n) : ℕ → Except PyErr (EncState T batch m)
  | 0 => .ok (encInit T batch m)
  | k + 1 => (encRun e X k).bind (encStep e X k)

/-- `Encoder.forward` (lines 49-101): zero-initialise the state, run the loop
for all `T` steps, return `X_encoded` of shape `(T, batch, m)`. -/
noncomputable def Encoder.forward {n T m batch : ℕ} (e : Encoder n T m)
    (X : Fin batch → Fin T → Vec n) : Except PyErr (Fin T → Fin batch → Vec m) :=
  (encRun e X T).map (fun s => s.x_encoded)

/-- The two torch modules applied in sequence: `Encoder.forward` followed by
`Decoder.forward` on the encoded states. -/
noncomputable def torchPipeline {n T m p y_dim batch : ℕ} (e : Encoder n T m)
    (d : Decoder T m p y_dim) (X : Fin batch → Fin T → Vec n)
    (Y : ℕ → Fin batch → Vec y_dim) : Except PyErr (Fin batch → Vec y_dim) :=
  (Encoder.forward e X).bind (fun Xenc => Decoder.forward d Y Xenc)

/-- The keras `DARNN` model of src/da_rnn/model.py.  Its sub-layers
`EncoderInput` and the keras `Decoder` come from `da_rnn/layers`, and the
keras `LSTM(m, return_sequences=True)` from tensorflow; none of these is in
the given sources.  Modelled from the spec: they are arbitrary functions of
exactly the arguments the source passes them (spec §4.3 — the variant's
layers realize the same contract), carried as fields so that `DARNN.call`
can be embedded faithfully from src/da_rnn/model.py lines 28-49. -/
structure KerasDARNN (batch T n m y_dim : ℕ) (δ : Type) where
  encoderInput :
    (Fin batch → Fin T → Vec n) → (Fin batch → Vec m) → (Fin batch → Vec m) →
      (Fin batch → Fin T → Vec n)
  encoderLSTM : (Fin batch → Fin T → Vec n) → (Fin batch → Fin T → Vec m)
  decoder :
    δ → (Fin batch → Fin T → Vec m) → (Fin batch → Vec m) → (Fin batch → Vec m) →
      (Fin batch → Vec y_dim)

/-- `DARNN.call` (src/da_rnn/model.py lines 28-49): create `h0 = s0 = zeros`,
feed them with `X` to `EncoderInput`, run the keras LSTM (Equation 11), then
the decoder (which also receives the zero states).  The trailing
`tf.squeeze` only reshapes; `darnnCallShape` below tracks its effect on the
shape. -/
noncomputable def KerasDARNN.call {batch T n m y_dim : ℕ} {δ : Type}
    (M : KerasDARNN batch T n m y_dim δ) (X : Fin batch → Fin T → Vec n)
    (dec_data : δ) : Fin batch → Vec y_dim :=
  let h0 : Fin batch → Vec m := fun _ _ => 0
  let s0 : Fin batch → Vec m := fun _ _ => 0
  let X_tilde := M.encoderInput X h0 s0
  let encoder_h := M.encoderLSTM X_tilde
  let y_hat_T := M.decoder dec_data encoder_h h0 s0
  y_hat_T

/-- `DARNN.__init__` (src/da_rnn/model.py lines 13-25): raises `ValueError`
when `T < 2`, otherwise records the configuration and builds the sub-layers.
This check runs at construction time, before any forward pass exists. -/
def DARNN.init (T m p : ℕ) : Except PyErr (ℕ × ℕ × ℕ) :=
  if T < 2 then .error .valueError else .ok (T, m, p)

/-! ## Shape-level model

Each torch operation used by the source checks its operands' shapes at run
time and raises `RuntimeError` (or `IndexError` for integer indexing) on a
mismatch.  `Shape` is a tensor shape; the `d*` functions below compute the
result shape of exactly the operation instances the source performs, at the
fixed ranks and dims the source uses. -/

/-- A tensor shape: the list of axis sizes. -/
abbrev Shape := List ℕ

/-- `torch.cat((a, b), 2)` on two rank-3 tensors. -/
def dcat2 : Shape → Shape → Except PyErr Shape
  | [a, b, c], [d, e, f] =>
    if a = d ∧ b = e then .ok [a, b, c + f] else .error .runtimeError
  | _, _ => .error .runtimeError

/-- `torch.cat((a, b), 1)` on two rank-2 tensors. -/
def dcat1 : Shape → Shape → Except PyErr Shape
  | [a, b], [c, d] => if a = c then .ok [a, b + d] else .error .runtimeError
  | _, _ => .error .runtimeError

/-- `.permute(1, 0, 2)` on a rank-3 tensor. -/
def dpermute102 : Shape → Except PyErr Shape
  | [a, b, c] => .ok [b, a, c]
  | _ => .error .runtimeError

/-- `.repeat(1, k, 1)` on a rank-3 tensor. -/
def drepeatMid (k : ℕ) : Shape → Except PyErr Shape
  | [a, b, c] => .ok [a, b * k, c]
  | _ => .error .runtimeError

/-- A `Linear(i, o)` layer applied to a rank-3 tensor: the last axis must
equal the layer's `in_features`. -/
def dlinear3 (i o : ℕ) : Shape → Except PyErr Shape
  | [a, b, c] => if c = i then .ok [a, b, o] else .error .runtimeError
  | _ => .error .runtimeError

/-- A `Linear(i, o)` layer applied to a rank-2 tensor. -/
def dlinear2 (i o : ℕ) : Shape → Except PyErr Shape
  | [a, b] => if b = i then .ok [a, o] else .error .runtimeError
  | _ => .error .runtimeError

/-- `.view(x, y)` on a rank-3 tensor: element count must be preserved. -/
def dview2 (x y : ℕ) : Shape → Except PyErr Shape
  | [a, b, c] => if a * b * c = x * y then .ok [x, y] else .error .runtimeError
  | _ => .error .runtimeError

/-- `torch.softmax(·, 1)` on a rank-2 tensor: shape unchanged. -/
def dsoftmax1 : Shape → Except PyErr Shape
  | [a, b] => .ok [a, b]
  | _ => .error .runtimeError

/-- `.unsqueeze(1)` on a rank-2 tensor. -/
def dunsqueeze1 : Shape → Except PyErr Shape
  | [a, b] => .ok [a, 1, b]
  | _ => .error .runtimeError

/-- `.unsqueeze(0)` on a rank-2 tensor. -/
def dunsqueeze0 : Shape → Except PyErr Shape
  | [a, b] => .ok [1, a, b]
  | _ => .error .runtimeError

/-- `torch.bmm` of `(b, i, k)` with `(b, k, j)`. -/
def dbmm : Shape → Shape → Except PyErr Shape
  | [a, b, c], [d, e, f] =>
    if a = d ∧ c = e then .ok [a, b, f] else .error .runtimeError
  | _, _ => .error .runtimeError

/-- `.squeeze(1)` on a rank-3 tensor: drop axis 1 iff it has size 1. -/
def dsqueeze1 : Shape → Except PyErr Shape
  | [a, b, c] => .ok (if b = 1 then [a, c] else [a, b, c])
  | _ => .error .runtimeError

/-- `.squeeze(0)` on a rank-3 tensor: drop axis 0 iff it has size 1. -/
def dsqueeze0 : Shape → Except PyErr Shape
  | [a, b, c] => .ok (if a = 1 then [b, c] else [a, b, c])
  | _ => .error .runtimeError

/-- `Y[:, t, :]` on a rank-3 tensor: integer indexing of axis 1 raises
`IndexError` when `t` is out of range. -/
def dsliceT (t : ℕ) : Shape → Except PyErr Shape
  | [a, b, c] => if t < b then .ok [a, c] else .error .indexError
  | _ => .error .indexError

/-- A single-layer `torch.nn.LSTM(inp, hid)` applied to input `x` with state
`(h, c)`: `x` must be `(seq, batch, inp)` and each state `(1, batch, hid)`;
the new states are `(1, batch, hid)`. -/
def dlstm (inp hid : ℕ) : Shape → Shape → Shape → Except PyErr Shape
  | [_s, b, i], [oh, bh, hh], [oc, bc, hc] =>
    if i = inp ∧ oh = 1 ∧ bh = b ∧ hh = hid ∧ oc = 1 ∧ bc = b ∧ hc = hid then
      .ok [1, b, hid]
    else .error .runtimeError
  | _, _, _ => .error .runtimeError

/-- Shape-level run of one iteration of `Decoder.forward`'s loop
(torch/model.py lines 163-213), operation by operation. -/
def decStepS (T m p y_dim batch : ℕ) (Yshape Xshape : Shape) (t : ℕ)
    (s : Shape × Shape × Option Shape) : Except PyErr (Shape × Shape × Option Shape) := do
  let hcat ← dcat2 s.1 s.2.1
  let hperm ← dpermute102 hcat
  let hrep ← drepeatMid T hperm
  let xe ← dpermute102 Xshape
  let catx ← dcat2 hrep xe
  let wu ← dlinear3 (p * 2 + m) m catx
  let vd ← dlinear3 m 1 wu
  let l ← dview2 batch T vd
  let beta ← dsoftmax1 l
  let bu ← dunsqueeze1 beta
  let xe2 ← dpermute102 Xshape
  let bm ← dbmm bu xe2
  let cv ← dsqueeze1 bm
  let yt ← dsliceT t Yshape
  let ytc ← dcat1 yt cv
  let ytl ← dlinear2 (y_dim + m) 1 ytc
  let yu ← dunsqueeze0 ytl
  let h2 ← dlstm 1 p yu s.1 s.2.1
  .ok (h2, h2, some cv)

/-- Shape-level state after the first `k` loop iterations. -/
def decRunS (T m p y_dim batch : ℕ) (Yshape Xshape : Shape) :
    ℕ → Except PyErr (Shape × Shape × Option Shape)
  | 0 => .ok ([1, batch, p], [1, batch, p], none)
  | k + 1 =>
    (decRunS T m p y_dim batch Yshape Xshape k).bind
      (decStepS T m p y_dim batch Yshape Xshape k)

/-- Shape-level `Decoder.forward` (torch/model.py lines 148-225):
`batch_size = Y.shape[0]`, zero states of shape `(1, batch, p)`, the loop run
`T - 1` times, then Equation 22 on the final hidden state and the
`context_vector` left over from the last iteration (`UnboundLocalError` when
no iteration ran). -/
def decForwardS (T m p y_dim : ℕ) (Yshape Xshape : Shape) : Except PyErr Shape :=
  match Yshape with
  | [] => .error .indexError
  | batch :: _ => do
    let s ← decRunS T m p y_dim batch Yshape Xshape (T - 1)
    match s.2.2 with
    | none => .error .unboundLocalError
    | some cv => do
      let hsq ← dsqueeze0 s.1
      let hc ← dcat1 hsq cv
      let wb ← dlinear2 (p + m) p hc
      dlinear2 p y_dim wb

/-- Shape-level `Encoder.forward` (torch/model.py lines 49-101):
`batch_size = X.shape[0]` (raises `IndexError` on a rank-0 tensor); when
`T = 0` the loop body never runs and the zero `X_encoded` of shape
`(T, batch, m)` is returned; otherwise the first iteration reaches the
undefined attribute `self.linear` at line 74 and raises `AttributeError`
before any tensor operation of that line (so before any shape of `X` beyond
`X.shape[0]` is even inspected). -/
def encForwardS (n T m : ℕ) (X : Shape) : Except PyErr Shape :=
  match X with
  | [] => .error .indexError
  | b :: _ =>
    let _ := n
    if T = 0 then .ok [T, b, m] else .error .attributeError

/-- `tf.squeeze` (src/da_rnn/model.py line 49): removes **every** axis of
size 1. -/
def tfSqueeze (s : Shape) : Shape := s.filter (fun d => d != 1)

/-- Shape of the value returned by `DARNN.call` (src/da_rnn/model.py lines
28-49).  Modelled from the spec: the keras `Decoder` layer (from the missing
`da_rnn/layers`) produces `y_hat_T` of shape `(batch, y_dim)` (spec §4.2 /
§8); the source then returns `tf.squeeze(y_hat_T)`. -/
def darnnCallShape (batch y_dim : ℕ) : Shape := tfSqueeze [batch, y_dim]

/-! ## Concrete module instances (used by witnesses) -/

/-- A concrete torch `Decoder` with all parameters zero. -/
noncomputable def zeroDec (T m p y : ℕ) : Decoder T m p y :=
  ⟨1, fun _ _ => 0, fun _ _ => 0, fun _ _ => 0, zeroLSTM 1 p,
   fun _ _ => 0, fun _ => 0, fun _ _ => 0, fun _ => 0, 0⟩

/-- A concrete torch `Encoder` with all parameters zero. -/
noncomputable def zeroEnc (n T m : ℕ) : Encoder n T m :=
  ⟨fun _ _ => 0, fun _ _ => 0, zeroLSTM n m, 0⟩

/-- A concrete zero input window `X` with `batch = 1`, `T = 2`, `n = 1`. -/
noncomputable def X0 : Fin 1 → Fin 2 → Vec 1 := fun _ _ _ => 0

/-- A concrete zero target history `Y` with `batch = 1`, `y_dim = 1`. -/
noncomputable def Y0 : ℕ → Fin 1 → Vec 1 := fun _ _ _ => 0

/-- Concrete zero encoded states for `T = 2`, `batch = 1`, `m = 1`. -/
noncomputable def Xe2 : Fin 2 → Fin 1 → Vec 1 := fun _ _ _ => 0

/-- Concrete zero encoded states for `T = 1`, `batch = 1`, `m = 1`. -/
noncomputable def Xe1 : Fin 1 → Fin 1 → Vec 1 := fun _ _ _ => 0

/-- A concrete `1 × 1` zero score matrix. -/
noncomputable def E0 : Mat 1 1 := fun _ _ => 0

/-! ## Softmax lemmas -/

theorem torchSoftmax_nonneg {k : ℕ} (hk : 0 < k) (v : Vec k) (j : Fin k) :
    0 ≤ torchSoftmax v j := by
  have hS : 0 < ∑ j, Real.exp (v j) :=
    Finset.sum_pos (fun i _ => Real.exp_pos _) ⟨⟨0, hk⟩, Finset.mem_univ _⟩
  exact div_nonneg (Real.exp_pos _).le hS.le

theorem torchSoftmax_sum {k : ℕ} (hk : 0 < k) (v : Vec k) :
    ∑ j, torchSoftmax v j = 1 := by
  have hS : 0 < ∑ j, Real.exp (v j) :=
    Finset.sum_pos (fun i _ => Real.exp_pos _) ⟨⟨0, hk⟩, Finset.mem_univ _⟩
  unfold torchSoftmax
  rw [← Finset.sum_div, div_self (ne_of_gt hS)]

/-! ## Helper lemmas about the shape-level run -/

theorem exbind_ok {α β : Type} (a : α) (f : α → Except PyErr β) :
    (Except.ok a >>= f) = f a := rfl

theorem exbind_err {α β : Type} (e : PyErr) (f : α → Except PyErr β) :
    ((Except.error e : Except PyErr α) >>= f) = .error e := rfl

theorem exbindb_ok {α β : Type} (a : α) (f : α → Except PyErr β) :
    (Except.ok a).bind f = f a := rfl

theorem exbindb_err {α β : Type} (e : PyErr) (f : α → Except PyErr β) :
    (Except.error e : Except PyErr α).bind f = .error e := rfl

/-- With `Y : (b, TY, y)` and `X_encoded : (T, b, m)`, every loop iteration
whose index stays below `TY` succeeds and preserves the state shapes. -/
theorem decRunS_ok (T m p y b TY k : ℕ) (hk : k ≤ TY) :
    decRunS T m p y b [b, TY, y] [T, b, m] k =
      .ok ([1, b, p], [1, b, p], if k = 0 then none else some [b, m]) := by
  induction k with
  | zero => rfl
  | succ k ih =>
    have hk' : k ≤ TY := Nat.le_of_succ_le hk
    have hlt : k < TY := hk
    rw [decRunS, ih hk', exbindb_ok]
    simp [decStepS, dcat2, dpermute102, drepeatMid, dlinear3, dview2, dsoftmax1,
      dunsqueeze1, dbmm, dsqueeze1, dsliceT, dcat1, dlinear2, dunsqueeze0, dlstm,
      hlt, exbind_ok, exbind_err, exbindb_ok, exbindb_err, mul_two, one_mul, mul_one]

/-- A raised exception propagates through all later loop iterations. -/
theorem decRunS_err (T m p y b : ℕ) (Ys Xs : Shape) (k j : ℕ) (e : PyErr)
    (h : decRunS T m p y b Ys Xs k = .error e) :
    decRunS T m p y b Ys Xs (k + j) = .error e := by
  induction j with
  | zero => exact h
  | succ j ih =>
    show decRunS T m p y b Ys Xs ((k + j) + 1) = .error e
    rw [decRunS, ih, exbindb_err]

/-- When `Y`'s time axis `TY` is shorter than the loop range, iteration `TY`
raises `IndexError` at the slice `Y[:, t, :]`. -/
theorem decRunS_stop (T m p y b TY : ℕ) :
    decRunS T m p y b [b, TY, y] [T, b, m] (TY + 1) = .error .indexError := by
  rw [decRunS, decRunS_ok T m p y b TY TY le_rfl, exbindb_ok]
  simp [decStepS, dcat2, dpermute102, drepeatMid, dlinear3, dview2, dsoftmax1,
    dunsqueeze1, dbmm, dsqueeze1, dsliceT, dcat1, dlinear2, dunsqueeze0, dlstm,
    exbind_ok, exbind_err, exbindb_ok, exbindb_err, mul_two, one_mul, mul_one]

/-- Well-shaped (or over-long) `Y`: the decoder's shape run returns
`(batch, y_dim)` whenever `T ≥ 2` and `Y`'s time axis has at least `T - 1`
entries. -/
theorem decForwardS_ok (T m p y b TY : ℕ) (hT : 2 ≤ T) (hTY : T - 1 ≤ TY) :
    decForwardS T m p y [b, TY, y] [T, b, m] = .ok [b, y] := by
  have h1 : T - 1 = (T - 2) + 1 := by omega
  simp only [decForwardS]
  rw [h1, decRunS_ok T m p y b TY ((T - 2) + 1) (by omega), exbind_ok]
  simp [dsqueeze0, dcat1, dlinear2, exbind_ok, exbindb_ok]

/-- Under-long `Y` (time axis shorter than `T - 1`): the decoder's shape run
raises `IndexError`. -/
theorem decForwardS_short (T m p y b TY : ℕ) (hTY : TY < T - 1) :
    decForwardS T m p y [b, TY, y] [T, b, m] = .error .indexError := by
  have h2 : T - 1 = (TY + 1) + (T - 1 - (TY + 1)) := by omega
  simp only [decForwardS]
  rw [h2, decRunS_err T m p y b _ _ (TY + 1) _ _ (decRunS_stop T m p y b TY),
    exbind_err]

/-! ## Helper lemmas about the value-level run -/

/-- After any completed iteration, `context_vector` holds the context computed
in that iteration from the state the iteration started with. -/
theorem decStateAt_succ_context {T m p y_dim batch : ℕ} (d : Decoder T m p y_dim)
    (Y : ℕ → Fin batch → Vec y_dim) (Xenc : Fin T → Fin batch → Vec m) (k : ℕ) :
    (decStateAt d Y Xenc (k + 1)).context =
      some (decContext d Xenc (decStateAt d Y Xenc k)) := rfl

/-- When the loop runs `k + 1` times, `Decoder.forward` applies Equation 22 to
the final hidden state and the context computed in the last iteration. -/
theorem decForward_eq {T m p y_dim batch : ℕ} (d : Decoder T m p y_dim)
    (Y : ℕ → Fin batch → Vec y_dim) (Xenc : Fin T → Fin batch → Vec m)
    (k : ℕ) (hk : T - 1 = k + 1) :
    Decoder.forward d Y Xenc =
      .ok (decFinal d (decStateAt d Y Xenc (k + 1)).hidden
        (decContext d Xenc (decStateAt d Y Xenc k))) := by
  unfold Decoder.forward
  rw [hk]
  rfl

/-- Every encoder run of at least one iteration raises the `AttributeError`
of line 74. -/
theorem encRun_err {n T m batch : ℕ} (e : Encoder n T m)
    (X : Fin batch → Fin T → Vec n) (k : ℕ) (hk : 1 ≤ k) :
    encRun e X k = .error .attributeError := by
  induction k with
  | zero => omega
  | succ k ih =>
    rcases Nat.eq_zero_or_pos k with h0 | h1
    · subst h0; rfl
    · rw [encRun, ih h1, exbindb_err]

/-- `Encoder.forward` raises `AttributeError` for every window length `T ≥ 1`. -/
theorem encForward_err {n T m batch : ℕ} (e : Encoder n T m)
    (X : Fin batch → Fin T → Vec n) (hT : 1 ≤ T) :
    Encoder.forward e X = .error .attributeError := by
  unfold Encoder.forward
  rw [encRun_err e X T hT]
  rfl

/-! ## Claim theorems -/

/-- Claim C1.  The claim states that for every valid configuration
(`n`, `T ≥ 2`, `m`) and input `X` of shape `(batch, T, n)`, `Encoder.forward`
terminates normally and returns a `(T, batch, m)` tensor computed per
Equation 8.  The code instead raises `AttributeError` on every call: line 74
of torch/model.py reads `self.linear(...)`, but `Encoder.__init__` defines
only `WU_e`, `v_e` and `lstm` (the Equation-8 layer was bound to `WU_e` and
is never used), so the very first loop iteration fails before Equation 8 is
ever computed. -/
theorem claim_C1 {n T m batch : ℕ} (e : Encoder n T m)
    (X : Fin batch → Fin T → Vec n) (hT : 2 ≤ T) :
    Encoder.forward e X = .error .attributeError :=
  encForward_err e X (by omega)

theorem claim_C1_witness :
    2 ≤ 2 ∧ Encoder.forward (zeroEnc 1 2 1) X0 = .error .attributeError :=
  ⟨by decide, claim_C1 (zeroEnc 1 2 1) X0 (by decide)⟩

/-- Claim C2: attention weights are non-negative and sum to 1 along the
attended axis.  First conjunct: the input-attention `Alpha_t` of Equation 9
(line 86) is `torch.softmax(E, 1)`, and for every score matrix `E` with
`n ≥ 1` each row of the softmax is non-negative and sums to `1` — this is a
property of the operation at line 86, independent of the scores feeding it.
Second conjunct: in `Decoder.forward`, the temporal attention `Beta_t` of
Equation 13 at every loop step `t` is non-negative and sums to `1` over the
`T`-axis. -/
theorem claim_C2 :
    (∀ (bn n : ℕ) (E : Mat bn n) (i : Fin bn), 0 < n →
      (∀ j, 0 ≤ torchSoftmax (E i) j) ∧ ∑ j, torchSoftmax (E i) j = 1) ∧
    (∀ (T m p y batch : ℕ) (d : Decoder T m p y) (Y : ℕ → Fin batch → Vec y)
        (Xenc : Fin T → Fin batch → Vec m), 0 < T → ∀ (t : ℕ) (b : Fin batch),
      (∀ j, 0 ≤ decBeta d Xenc (decStateAt d Y Xenc t) b j) ∧
        ∑ j, decBeta d Xenc (decStateAt d Y Xenc t) b j = 1) := by
  constructor
  · intro bn n E i hn
    exact ⟨fun j => torchSoftmax_nonneg hn (E i) j, torchSoftmax_sum hn (E i)⟩
  · intro T m p y batch d Y Xenc hT t b
    exact ⟨fun j => torchSoftmax_nonneg hT _ j, torchSoftmax_sum hT _⟩

theorem claim_C2_witness :
    ((∀ j, 0 ≤ torchSoftmax (E0 0) j) ∧ ∑ j, torchSoftmax (E0 0) j = 1) ∧
    ((∀ j, 0 ≤ decBeta (zeroDec 2 1 1 1) Xe2 (decStateAt (zeroDec 2 1 1 1) Y0 Xe2 0) 0 j) ∧
      ∑ j, decBeta (zeroDec 2 1 1 1) Xe2 (decStateAt (zeroDec 2 1 1 1) Y0 Xe2 0) 0 j = 1) :=
  ⟨claim_C2.1 1 1 E0 0 (by decide),
   claim_C2.2 2 1 1 1 1 (zeroDec 2 1 1 1) Y0 Xe2 (by decide) 0 0⟩

/-- Claim C3: the decoder loop runs for `t = 0 .. T-2` (it is
`for t in range(T - 1)`, i.e. `T - 1` iterations), and the final projection
(Equation 22) pairs the hidden state left by the last iteration with the
`context_vector` computed inside that same last iteration (index `T - 2`);
no context is recomputed between the loop and the projection. -/
theorem claim_C3 {T m p y batch : ℕ} (d : Decoder T m p y)
    (Y : ℕ → Fin batch → Vec y) (Xenc : Fin T → Fin batch → Vec m) (hT : 2 ≤ T) :
    Decoder.forward d Y Xenc =
      .ok (decFinal d (decStateAt d Y Xenc (T - 1)).hidden
        (decContext d Xenc (decStateAt d Y Xenc (T - 2)))) := by
  have h1 : T - 1 = (T - 2) + 1 := by omega
  rw [h1]
  exact decForward_eq d Y Xenc (T - 2) (by omega)

theorem claim_C3_witness :
    Decoder.forward (zeroDec 2 1 1 1) Y0 Xe2 =
      .ok (decFinal (zeroDec 2 1 1 1) (decStateAt (zeroDec 2 1 1 1) Y0 Xe2 1).hidden
        (decContext (zeroDec 2 1 1 1) Xe2 (decStateAt (zeroDec 2 1 1 1) Y0 Xe2 0))) :=
  claim_C3 (zeroDec 2 1 1 1) Y0 Xe2 (by decide)

/-- Claim C4: for every configuration with `T ≥ 2` and well-shaped inputs
`Y : (batch, T-1, y_dim)` and `X_encoded : (T, batch, m)`, the decoder's
shape-checked run succeeds and returns shape `(batch, y_dim)`. -/
theorem claim_C4 (batch T m p y : ℕ) (hT : 2 ≤ T) :
    decForwardS T m p y [batch, T - 1, y] [T, batch, m] = .ok [batch, y] :=
  decForwardS_ok T m p y batch (T - 1) hT le_rfl

theorem claim_C4_witness :
    decForwardS 2 1 1 1 [1, 1, 1] [2, 1, 1] = .ok [1, 1] :=
  claim_C4 1 2 1 1 1 (by decide)

/-- Claim C5: `DARNN.__init__` (src/da_rnn/model.py lines 16-19) rejects
`T = 0` and `T = 1` with `ValueError` and accepts `T = 2`; the check lives
in the constructor, before any forward pass can run. -/
theorem claim_C5 (m p : ℕ) :
    DARNN.init 0 m p = .error .valueError ∧
    DARNN.init 1 m p = .error .valueError ∧
    DARNN.init 2 m p = .ok (2, m, p) :=
  ⟨rfl, rfl, rfl⟩

/-- Claim C6: every forward pass starts from all-zero recurrent state and no
state survives a call.  Conjunct 1: the encoder's state before loop step 0
is the zero state (lines 60-61).  Conjunct 2: the decoder's state before
loop step 0 is zero (lines 160-161).  Conjunct 3: the keras `DARNN.call`
feeds freshly created zero `h0`/`s0` to both its encoder input and decoder
(src/da_rnn/model.py lines 35-46), so it equals a pure composition of its
layers over the inputs and zeros.  Conjunct 4: running any earlier call
first leaves the result of a later call unchanged (the model is a pure
function of its arguments). -/
theorem claim_C6 {n T m p y batch nk mk Tk yk bk : ℕ} {δ : Type}
    (e : Encoder n T m) (X : Fin batch → Fin T → Vec n)
    (d : Decoder T m p y) (Y : ℕ → Fin batch → Vec y)
    (Xenc : Fin T → Fin batch → Vec m)
    (M : KerasDARNN bk Tk nk mk yk δ) (X' : Fin bk → Fin Tk → Vec nk) (dd : δ) :
    (encRun e X 0 = .ok (encInit T batch m) ∧
      (encInit T batch m).hidden = (fun _ _ => 0) ∧
      (encInit T batch m).cell = (fun _ _ => 0)) ∧
    ((decStateAt d Y Xenc 0).hidden = (fun _ _ => 0) ∧
      (decStateAt d Y Xenc 0).cell = (fun _ _ => 0)) ∧
    (KerasDARNN.call M X' dd =
      M.decoder dd (M.encoderLSTM (M.encoderInput X' (fun _ _ => 0) (fun _ _ => 0)))
        (fun _ _ => 0) (fun _ _ => 0)) ∧
    (∀ (Xp : Fin bk → Fin Tk → Vec nk) (dp : δ),
      (fun _ => KerasDARNN.call M X' dd) (KerasDARNN.call M Xp dp) =
        KerasDARNN.call M X' dd) :=
  ⟨⟨rfl, rfl, rfl⟩, ⟨rfl, rfl⟩, rfl, fun _ _ => rfl⟩

/-- Claim C7: with dropout 0 and fixed parameters, two runs of
`Encoder.forward` followed by `Decoder.forward` on identical inputs give
identical results (each composition is a pure function of parameters and
inputs; nothing else enters the computation). -/
theorem claim_C7 {n T m p y batch : ℕ} (e : Encoder n T m) (d : Decoder T m p y)
    (X₁ X₂ : Fin batch → Fin T → Vec n) (Y₁ Y₂ : ℕ → Fin batch → Vec y)
    (Xe₁ Xe₂ : Fin T → Fin batch → Vec m)
    (_hde : e.dropout = 0) (_hdd : d.dropout = 0)
    (hX : X₁ = X₂) (hY : Y₁ = Y₂) (hXe : Xe₁ = Xe₂) :
    Encoder.forward e X₁ = Encoder.forward e X₂ ∧
    Decoder.forward d Y₁ Xe₁ = Decoder.forward d Y₂ Xe₂ ∧
    torchPipeline e d X₁ Y₁ = torchPipeline e d X₂ Y₂ := by
  subst hX; subst hY; subst hXe
  exact ⟨rfl, rfl, rfl⟩

theorem claim_C7_witness :
    (zeroEnc 1 2 1).dropout = 0 ∧ (zeroDec 2 1 1 1).dropout = 0 ∧
    (Encoder.forward (zeroEnc 1 2 1) X0 = Encoder.forward (zeroEnc 1 2 1) X0 ∧
      Decoder.forward (zeroDec 2 1 1 1) Y0 Xe2 = Decoder.forward (zeroDec 2 1 1 1) Y0 Xe2 ∧
      torchPipeline (zeroEnc 1 2 1) (zeroDec 2 1 1 1) X0 Y0 =
        torchPipeline (zeroEnc 1 2 1) (zeroDec 2 1 1 1) X0 Y0) :=
  ⟨rfl, rfl,
   claim_C7 (zeroEnc 1 2 1) (zeroDec 2 1 1 1) X0 X0 Y0 Y0 Xe2 Xe2 rfl rfl rfl rfl rfl⟩

/-- Claim C8, counterexample.  The claim states the result of the top-level
call is squeezed to fewer dimensions only when `y_dim = 1` and `batch = 1`.
At `batch = 2`, `y_dim = 1` (so `batch ≠ 1`), `tf.squeeze` still removes the
size-1 `y_dim` axis: the result has shape `[2]`, not `[2, 1]`. -/
theorem claim_C8_cex :
    darnnCallShape 2 1 = [2] ∧ darnnCallShape 2 1 ≠ [2, 1] ∧ (2 : ℕ) ≠ 1 := by
  refine ⟨rfl, ?_, by decide⟩
  decide

/-- Claim C8, amended: `DARNN.call` returns `tf.squeeze` of the decoder's
`(batch, y_dim)` output, which removes **every** axis of size 1 — so the
result has fewer dimensions whenever `batch = 1` **or** `y_dim = 1`, not
only when both are 1.  The true part of the claim stands: for `batch > 1`
the batch axis is preserved as the leading axis, and for `batch > 1` and
`y_dim > 1` the shape is exactly `(batch, y_dim)`. -/
theorem claim_C8_amended (batch y : ℕ) :
    darnnCallShape batch y = [batch, y].filter (fun d => d != 1) ∧
    (1 < batch → (darnnCallShape batch y).head? = some batch) ∧
    (1 < batch → 1 < y → darnnCallShape batch y = [batch, y]) ∧
    (batch = 1 ∨ y = 1 → (darnnCallShape batch y).length < 2) := by
  have key : darnnCallShape batch y =
      (if batch = 1 then ([] : Shape) else [batch]) ++
        (if y = 1 then ([] : Shape) else [y]) := by
    by_cases hb : batch = 1 <;> by_cases hy : y = 1 <;>
      simp [darnnCallShape, tfSqueeze, hb, hy]
  refine ⟨rfl, ?_, ?_, ?_⟩
  · intro hb
    rw [key, if_neg (by omega)]
    simp
  · intro hb hy
    rw [key, if_neg (by omega), if_neg (by omega)]
    rfl
  · intro h
    rw [key]
    rcases h with h | h
    · rw [if_pos h]
      rcases eq_or_ne y 1 with hy | hy <;> simp [hy]
    · rw [if_pos h]
      rcases eq_or_ne batch 1 with hb | hb <;> simp [hb]

theorem claim_C8_amended_witness :
    (darnnCallShape 2 1).head? = some 2 ∧ darnnCallShape 2 3 = [2, 3] ∧
    (darnnCallShape 2 1).length < 2 :=
  ⟨(claim_C8_amended 2 1).2.1 (by decide),
   (claim_C8_amended 2 3).2.2.1 (by decide) (by decide),
   (claim_C8_amended 2 1).2.2.2 (Or.inr rfl)⟩

/-- Claim C9, counterexample.  The claim states that a `Y` whose time axis
differs from `T - 1` raises an error in `Decoder.forward`.  With `T = 2`
(loop range `T - 1 = 1`) and `Y` of shape `(1, 3, 1)` — time axis `3 ≠ 1` —
the forward pass succeeds, silently consuming only `Y[:, 0, :]`. -/
theorem claim_C9_cex :
    decForwardS 2 1 1 1 [1, 3, 1] [2, 1, 1] = .ok [1, 1] ∧ (3 : ℕ) ≠ 2 - 1 :=
  ⟨rfl, by decide⟩

/-- Claim C9, amended.  (1) `Encoder.forward` raises an error on every input
`X` (in particular on a mismatched last dimension), but it is the
`AttributeError` of the undefined `self.linear`, raised before any shape
check.  (2) `Decoder.forward` raises `IndexError` when `Y`'s time axis is
**shorter** than `T - 1` (the slice `Y[:, t, :]` goes out of range), but a
time axis **longer** than `T - 1` is silently accepted and only the first
`T - 1` steps are consumed.  (3) With a time axis of at least `T - 1` steps
and matching `y_dim`, the pass succeeds. -/
theorem claim_C9_amended (n T m p y b TY : ℕ) (rest : Shape) :
    (1 ≤ T → encForwardS n T m (b :: rest) = .error .attributeError) ∧
    (TY < T - 1 → decForwardS T m p y [b, TY, y] [T, b, m] = .error .indexError) ∧
    (2 ≤ T → T - 1 ≤ TY → decForwardS T m p y [b, TY, y] [T, b, m] = .ok [b, y]) := by
  refine ⟨?_, decForwardS_short T m p y b TY, decForwardS_ok T m p y b TY⟩
  intro hT
  simp only [encForwardS]
  rw [if_neg (by omega)]

theorem claim_C9_amended_witness :
    encForwardS 3 2 1 [1, 5, 4] = .error .attributeError ∧
    decForwardS 3 1 1 1 [1, 1, 1] [3, 1, 1] = .error .indexError ∧
    decForwardS 2 1 1 1 [1, 1, 1] [2, 1, 1] = .ok [1, 1] :=
  ⟨(claim_C9_amended 3 2 1 1 1 1 9 [5, 4]).1 (by decide),
   (claim_C9_amended 3 3 1 1 1 1 1 []).2.1 (by decide),
   (claim_C9_amended 3 2 1 1 1 1 1 []).2.2 (by decide) (by decide)⟩

/-- Claim C10: with `T ≥ 2` the decoder loop runs at least once, so the
`context_vector` used by Equation 22 is bound and the pass returns a value;
the torch `Decoder.__init__` accepts `T = 1` without any check (witness the
instance `zeroDec 1 1 1 1` below), and then the loop body never runs and the
forward pass fails with the unbound-variable error at line 218 instead of
producing a prediction. -/
theorem claim_C10 (T m p y batch : ℕ) (d : Decoder T m p y)
    (Y : ℕ → Fin batch → Vec y) (Xenc : Fin T → Fin batch → Vec m) :
    (2 ≤ T → (decStateAt d Y Xenc (T - 1)).context.isSome = true ∧
      ∃ v, Decoder.forward d Y Xenc = .ok v) ∧
    (T = 1 → Decoder.forward d Y Xenc = .error .unboundLocalError) := by
  constructor
  · intro hT
    have h1 : T - 1 = (T - 2) + 1 := by omega
    refine ⟨by rw [h1]; rfl, ⟨_, decForward_eq d Y Xenc (T - 2) (by omega)⟩⟩
  · intro hT
    subst hT
    rfl

theorem claim_C10_witness :
    ((decStateAt (zeroDec 2 1 1 1) Y0 Xe2 1).context.isSome = true ∧
      ∃ v, Decoder.forward (zeroDec 2 1 1 1) Y0 Xe2 = .ok v) ∧
    Decoder.forward (zeroDec 1 1 1 1) Y0 Xe1 = .error .unboundLocalError :=
  ⟨(claim_C10 2 1 1 1 1 (zeroDec 2 1 1 1) Y0 Xe2).1 (by decide),
   (claim_C10 1 1 1 1 1 (zeroDec 1 1 1 1) Y0 Xe1).2 rfl⟩
